import Mathlib

/-!
Verification of the `rust-http-server` repository: a fixed-size thread pool
(`src/lib.rs`) and an HTTP CRUD front end over a remote JSON store
(`src/bin/main.rs`).  The Rust source is shallowly embedded: pure string
manipulation becomes Lean functions on `String`, the external JSON
(de)serialization and the remote store become explicit parameters, and
fallible operations become `Except`.  Handlers additionally return the list
of backend calls they performed, so that claims about "no backend call"
are expressible.
-/

namespace RustHttpServer

/-- JSON values, modelling `serde_json::Value` (an external collaborator of
the repository; the spec treats JSON (de)serialization as out of scope). -/
inductive Json where
  | null
  | bool (b : Bool)
  | num (n : Int)
  | str (s : String)
  | arr (elems : List Json)
  | obj (fields : List (String × Json))
deriving Repr

/-- Modelled from the spec: `Value::is_null` of the external JSON library —
true exactly on the JSON null value. -/
def Json.isNull : Json → Bool
  | .null => true
  | _ => false

/-- Modelled from the spec: `Value::get(key)` of the external JSON library —
field lookup on a JSON object, `none` on a non-object or a missing key. -/
def Json.getField : Json → String → Option Json
  | .obj fields, key => (fields.find? (fun f => f.1 = key)).map (·.2)
  | _, _ => none

/-- Modelled from the spec: `Value::as_str` of the external JSON library —
`some s` exactly on a JSON string. -/
def Json.asStr : Json → Option String
  | .str s => some s
  | _ => none

mutual
/-- Modelled from the spec: compact serialization `Value::to_string` of the
external JSON library (string escaping is not modelled: keys and string
values are rendered between plain quotes). -/
def Json.render : Json → String
  | .null => "null"
  | .bool true => "true"
  | .bool false => "false"
  | .num n => toString n
  | .str s => "\"" ++ s ++ "\""
  | .arr elems => "[" ++ Json.renderArr elems ++ "]"
  | .obj fields => "\x7b" ++ Json.renderObj fields ++ "\x7d"

/-- Comma-separated rendering of JSON array elements. -/
def Json.renderArr : List Json → String
  | [] => ""
  | [x] => Json.render x
  | x :: xs => Json.render x ++ "," ++ Json.renderArr xs

/-- Comma-separated rendering of JSON object fields. -/
def Json.renderObj : List (String × Json) → String
  | [] => ""
  | [f] => "\"" ++ f.1 ++ "\":" ++ Json.render f.2
  | f :: fs => "\"" ++ f.1 ++ "\":" ++ Json.render f.2 ++ "," ++ Json.renderObj fs
end

/-- One call made against the remote store, recording the operation, the
path and (for writes) the payload. -/
inductive BackendCall where
  | get (path : String)
  | set (path : String) (v : Json)
  | update (path : String) (v : Json)
  | delete (path : String)
deriving Repr

/-- Modelled from the spec: the backend collaborator interface of §6,
`get(path) -> JSON|error`, `set/update(path, JSON) -> ok|error`,
`delete(path) -> ok|error` (the `firebase_rs` client is external to the
repository).  Errors carry no information the handlers inspect. -/
structure Backend where
  get : String → Except Unit Json
  set : String → Json → Except Unit Unit
  update : String → Json → Except Unit Unit
  delete : String → Except Unit Unit

/-- Rust `format!("{}\r\nContent-Length: {}\r\n\r\n{}", status_line, contents.len(), contents)`
— the response layout shared by every handler in `main.rs`; `contents.len()`
in Rust is the UTF-8 byte length. -/
def formatResponse (status_line contents : String) : String :=
  status_line ++ "\r\nContent-Length: " ++ toString contents.utf8ByteSize ++ "\r\n\r\n" ++ contents

/-- Rust `handle_400` from `main.rs`: the fixed 400 response. -/
def handle_400 : String :=
  formatResponse "HTTP/1.0 400 BAD REQUEST" "400 - Bad Request"

/-- Rust `handle_404` from `main.rs`: the fixed 404 response. -/
def handle_404 : String :=
  formatResponse "HTTP/1.0 404 NOT FOUND" "404 - Not Found"

/-!
Rust's `str::split`, `str::split_whitespace`, `str::trim`, `str::replace`
and `str::lines` are embedded as structural functions over `List Char`
(Rust strings are processed as character sequences here; none of the
claims depend on byte-level UTF-8 indexing).
-/

/-- One step of substring splitting: `go sep fuel s acc` scans `s`, emitting
the (reversed) accumulator each time `sep` occurs as a prefix.  `fuel`
bounds the recursion; it is always at least `s.length + 1` at the call site,
which suffices because each step consumes at least one character of `s`
(the separator is nonempty everywhere it is used). -/
def splitOnGo (sep : List Char) : Nat → List Char → List Char → List (List Char)
  | 0, s, acc => [acc.reverse ++ s]
  | _ + 1, [], acc => [acc.reverse]
  | fuel + 1, c :: rest, acc =>
    if sep.isPrefixOf (c :: rest) then
      acc.reverse :: splitOnGo sep fuel (List.drop sep.length (c :: rest)) []
    else
      splitOnGo sep fuel rest (c :: acc)

/-- Rust `str::split(sep)` for a nonempty substring separator, collected to
a list: the pieces of `s` between occurrences of `sep` (adjacent or leading
or trailing separators yield empty pieces, as in Rust). -/
def listSplitOn (sep s : List Char) : List (List Char) :=
  splitOnGo sep (s.length + 1) s []

/-- Rust `str::split(pred)` on a character predicate: pieces of `s` between
characters satisfying `p`, empty pieces included. -/
def splitPred (p : Char → Bool) : List Char → List (List Char)
  | [] => [[]]
  | c :: rest =>
    if p c then
      [] :: splitPred p rest
    else
      match splitPred p rest with
      | [] => [[c]]
      | t :: ts => (c :: t) :: ts

/-- Rust `str::trim`: remove leading and trailing whitespace characters. -/
def listTrim (s : List Char) : List Char :=
  ((s.dropWhile Char.isWhitespace).reverse.dropWhile Char.isWhitespace).reverse

/-- Rust `str::lines().next()` — the first line of a string: `none` on the
empty string; otherwise the characters before the first newline, with a
carriage return stripped from its end when a newline terminated the line. -/
def firstLine (s : List Char) : Option (List Char) :=
  match s with
  | [] => none
  | _ =>
    let pre := s.takeWhile (fun c => c ≠ '\n')
    if s.contains '\n' then
      some (if pre.getLast? = some '\r' then pre.dropLast else pre)
    else
      some pre

/-- Rust `str::split_whitespace` collected to a list: the maximal runs of
non-whitespace characters of `s`. -/
def splitWhitespace (s : List Char) : List String :=
  ((splitPred Char.isWhitespace s).filter (fun t => t ≠ [])).map String.mk

/-- The status line of a formatted response: everything before the first
`\r\n`. -/
def statusOf (response : String) : String :=
  String.mk ((listSplitOn ['\r', '\n'] response.data).headD [])

/-- The body of a formatted response: everything after the first blank-line
separator. -/
def bodyOf (response : String) : String :=
  String.mk ((listSplitOn ['\r', '\n', '\r', '\n'] response.data).getD 1 [])

/-- Rust `request.split("\r\n\r\n").nth(1)` from the POST handlers: the part of
the request after the first blank-line separator, `none` when the request
has no separator. -/
def bodyAfterSep (request : String) : Option String :=
  ((listSplitOn ['\r', '\n', '\r', '\n'] request.data).get? 1).map String.mk

/-- Rust `request.split("\r\n\r\n").nth(1).unwrap_or("").replace('\0', "").trim()`
from the PUT/DELETE handlers: the body after the separator (empty if there
is none), NUL characters removed, surrounding whitespace trimmed
(`replace('\0', "")` deletes every NUL, i.e. filters it out). -/
def sanitizedBody (request : String) : String :=
  String.mk (listTrim (((listSplitOn ['\r', '\n', '\r', '\n'] request.data).getD 1 []).filter
    (fun c => c ≠ '\x00')))

/-- Rust `body.replace('\0', "").trim()` from the POST handlers, applied to an
already extracted body. -/
def sanitize (body : String) : String :=
  String.mk (listTrim (body.data.filter (fun c => c ≠ '\x00')))

/-- The string-`id` field of a parsed PUT/DELETE body:
`value.get("id").and_then(|id| id.as_str())` from `main.rs`. -/
def jsonIdStr (v : Json) : Option String :=
  (v.getField "id").bind Json.asStr

/-- Rust `parse_request_line` from `main.rs`: take the first line of the request,
split it on whitespace, and return the first two tokens as
`(method, path)`; when there is no line or fewer than two tokens, return
`("", "")`. -/
def parse_request_line (request : String) : String × String :=
  match firstLine request.data with
  | some line =>
    let parts := splitWhitespace line
    if parts.length ≥ 2 then (parts.getD 0 "", parts.getD 1 "") else ("", "")
  | none => ("", "")

/-- The whitespace-separated tokens of the first line of a request (empty
when the request is empty). -/
def firstLineTokens (request : String) : List String :=
  match firstLine request.data with
  | some line => splitWhitespace line
  | none => []

/-- The `Movie` record of `main.rs`. -/
structure Movie where
  title : String
  director : String
  release_year : Nat

/-- The `Actor` record of `main.rs`. -/
structure Actor where
  name : String
  date_of_birth : Nat

/-- The `Review` record of `main.rs`. -/
structure Review where
  movie_id : String
  reviewer : String
  rating : Nat
  comment : String

/-- Rust `json!(movie)`: the JSON object of a `Movie`. -/
def Movie.toJson (m : Movie) : Json :=
  .obj [("title", .str m.title), ("director", .str m.director),
        ("release_year", .num m.release_year)]

/-- Rust `json!(actor)`: the JSON object of an `Actor`. -/
def Actor.toJson (a : Actor) : Json :=
  .obj [("name", .str a.name), ("date_of_birth", .num a.date_of_birth)]

/-- Rust `json!(review)`: the JSON object of a `Review`. -/
def Review.toJson (r : Review) : Json :=
  .obj [("movie_id", .str r.movie_id), ("reviewer", .str r.reviewer),
        ("rating", .num r.rating), ("comment", .str r.comment)]

/-!
The twelve resource handlers of `main.rs`.  The external
`serde_json::from_str` deserializers are passed in as parameters
(`pv` for `serde_json::Value`, `pm`/`pa`/`pr` for the three record types),
as is the backend client `fb`.  Each handler returns the response string
it produces together with the list of backend calls it performed.
-/

/-- Rust `handle_get_movies` from `main.rs`: fetch `movies`; a null collection
renders as `[]` with 200, any other value renders serialized with 200, a
backend error renders 500. -/
def handle_get_movies (fb : Backend) : String × List BackendCall :=
  match fb.get "movies" with
  | .ok movies =>
    if movies.isNull then
      (formatResponse "HTTP/1.0 200 OK" "[]", [.get "movies"])
    else
      (formatResponse "HTTP/1.0 200 OK" movies.render, [.get "movies"])
  | .error _ =>
    (formatResponse "HTTP/1.0 500 INTERNAL SERVER ERROR" "Failed to retrieve movies",
     [.get "movies"])

/-- Rust `handle_get_actors` from `main.rs`. -/
def handle_get_actors (fb : Backend) : String × List BackendCall :=
  match fb.get "actors" with
  | .ok actors =>
    if actors.isNull then
      (formatResponse "HTTP/1.0 200 OK" "[]", [.get "actors"])
    else
      (formatResponse "HTTP/1.0 200 OK" actors.render, [.get "actors"])
  | .error _ =>
    (formatResponse "HTTP/1.0 500 INTERNAL SERVER ERROR" "Failed to retrieve actors",
     [.get "actors"])

/-- Rust `handle_get_reviews` from `main.rs`. -/
def handle_get_reviews (fb : Backend) : String × List BackendCall :=
  match fb.get "reviews" with
  | .ok reviews =>
    if reviews.isNull then
      (formatResponse "HTTP/1.0 200 OK" "[]", [.get "reviews"])
    else
      (formatResponse "HTTP/1.0 200 OK" reviews.render, [.get "reviews"])
  | .error _ =>
    (formatResponse "HTTP/1.0 500 INTERNAL SERVER ERROR" "Failed to retrieve reviews",
     [.get "reviews"])

/-- Rust `handle_post_movies` from `main.rs`: extract and sanitize the body,
parse it as a `Movie`, `set` it under `movies/`; 201 on success, otherwise
fall through to the 400 response (also on a backend error). -/
def handle_post_movies (pm : String → Except Unit Movie) (fb : Backend)
    (request : String) : String × List BackendCall :=
  match bodyAfterSep request with
  | some body =>
    match pm (sanitize body) with
    | .ok movie =>
      match fb.set "movies/" movie.toJson with
      | .ok _ => (formatResponse "HTTP/1.0 201 CREATED" "Movie created",
                  [.set "movies/" movie.toJson])
      | .error _ => (handle_400, [.set "movies/" movie.toJson])
    | .error _ => (handle_400, [])
  | none => (handle_400, [])

/-- Rust `handle_post_actors` from `main.rs`. -/
def handle_post_actors (pa : String → Except Unit Actor) (fb : Backend)
    (request : String) : String × List BackendCall :=
  match bodyAfterSep request with
  | some body =>
    match pa (sanitize body) with
    | .ok actor =>
      match fb.set "actors/" actor.toJson with
      | .ok _ => (formatResponse "HTTP/1.0 201 CREATED" "Actor created",
                  [.set "actors/" actor.toJson])
      | .error _ => (handle_400, [.set "actors/" actor.toJson])
    | .error _ => (handle_400, [])
  | none => (handle_400, [])

/-- Rust `handle_post_reviews` from `main.rs`. -/
def handle_post_reviews (pr : String → Except Unit Review) (fb : Backend)
    (request : String) : String × List BackendCall :=
  match bodyAfterSep request with
  | some body =>
    match pr (sanitize body) with
    | .ok review =>
      match fb.set "reviews/" review.toJson with
      | .ok _ => (formatResponse "HTTP/1.0 201 CREATED" "Review created",
                  [.set "reviews/" review.toJson])
      | .error _ => (handle_400, [.set "reviews/" review.toJson])
    | .error _ => (handle_400, [])
  | none => (handle_400, [])

/-- Rust `handle_put_movies` from `main.rs`: extract and sanitize the body, parse
it as a JSON value, require a string `id` field, `update` at
`movies/{id}`; 200 on success, otherwise fall through to the 400 response
(also on a backend error). -/
def handle_put_movies (pv : String → Except Unit Json) (fb : Backend)
    (request : String) : String × List BackendCall :=
  match pv (sanitizedBody request) with
  | .ok movie_update =>
    match jsonIdStr movie_update with
    | some id =>
      match fb.update ("movies/" ++ id) movie_update with
      | .ok _ => (formatResponse "HTTP/1.0 200 OK" "Movie updated",
                  [.update ("movies/" ++ id) movie_update])
      | .error _ => (handle_400, [.update ("movies/" ++ id) movie_update])
    | none => (handle_400, [])
  | .error _ => (handle_400, [])

/-- Rust `handle_put_actors` from `main.rs`. -/
def handle_put_actors (pv : String → Except Unit Json) (fb : Backend)
    (request : String) : String × List BackendCall :=
  match pv (sanitizedBody request) with
  | .ok actor_update =>
    match jsonIdStr actor_update with
    | some id =>
      match fb.update ("actors/" ++ id) actor_update with
      | .ok _ => (formatResponse "HTTP/1.0 200 OK" "Actor updated",
                  [.update ("actors/" ++ id) actor_update])
      | .error _ => (handle_400, [.update ("actors/" ++ id) actor_update])
    | none => (handle_400, [])
  | .error _ => (handle_400, [])

/-- Rust `handle_put_reviews` from `main.rs`. -/
def handle_put_reviews (pv : String → Except Unit Json) (fb : Backend)
    (request : String) : String × List BackendCall :=
  match pv (sanitizedBody request) with
  | .ok review_update =>
    match jsonIdStr review_update with
    | some id =>
      match fb.update ("reviews/" ++ id) review_update with
      | .ok _ => (formatResponse "HTTP/1.0 200 OK" "Review updated",
                  [.update ("reviews/" ++ id) review_update])
      | .error _ => (handle_400, [.update ("reviews/" ++ id) review_update])
    | none => (handle_400, [])
  | .error _ => (handle_400, [])

/-- Rust `handle_delete_movies` from `main.rs`: extract and sanitize the body,
parse it as a JSON value, require a string `id` field, `delete` at
`movies/{id}`; 200 on success, otherwise fall through to the 400 response
(also on a backend error). -/
def handle_delete_movies (pv : String → Except Unit Json) (fb : Backend)
    (request : String) : String × List BackendCall :=
  match pv (sanitizedBody request) with
  | .ok movie =>
    match jsonIdStr movie with
    | some id =>
      match fb.delete ("movies/" ++ id) with
      | .ok _ => (formatResponse "HTTP/1.0 200 OK" "Movie deleted",
                  [.delete ("movies/" ++ id)])
      | .error _ => (handle_400, [.delete ("movies/" ++ id)])
    | none => (handle_400, [])
  | .error _ => (handle_400, [])

/-- Rust `handle_delete_actors` from `main.rs`. -/
def handle_delete_actors (pv : String → Except Unit Json) (fb : Backend)
    (request : String) : String × List BackendCall :=
  match pv (sanitizedBody request) with
  | .ok actor =>
    match jsonIdStr actor with
    | some id =>
      match fb.delete ("actors/" ++ id) with
      | .ok _ => (formatResponse "HTTP/1.0 200 OK" "Actor deleted",
                  [.delete ("actors/" ++ id)])
      | .error _ => (handle_400, [.delete ("actors/" ++ id)])
    | none => (handle_400, [])
  | .error _ => (handle_400, [])

/-- Rust `handle_delete_reviews` from `main.rs`. -/
def handle_delete_reviews (pv : String → Except Unit Json) (fb : Backend)
    (request : String) : String × List BackendCall :=
  match pv (sanitizedBody request) with
  | .ok review =>
    match jsonIdStr review with
    | some id =>
      match fb.delete ("reviews/" ++ id) with
      | .ok _ => (formatResponse "HTTP/1.0 200 OK" "Review deleted",
                  [.delete ("reviews/" ++ id)])
      | .error _ => (handle_400, [.delete ("reviews/" ++ id)])
    | none => (handle_400, [])
  | .error _ => (handle_400, [])

/-- The routing `match (method, path)` block inside `handle_connection` of
`main.rs`: exact match on the twelve routed pairs, anything else falls to
`handle_404` (which performs no backend call). -/
def routeRequest (pv : String → Except Unit Json) (pm : String → Except Unit Movie)
    (pa : String → Except Unit Actor) (pr : String → Except Unit Review)
    (fb : Backend) (method path request : String) : String × List BackendCall :=
  if method = "GET" ∧ path = "/api/movies" then handle_get_movies fb
  else if method = "POST" ∧ path = "/api/movies" then handle_post_movies pm fb request
  else if method = "PUT" ∧ path = "/api/movies" then handle_put_movies pv fb request
  else if method = "DELETE" ∧ path = "/api/movies" then handle_delete_movies pv fb request
  else if method = "GET" ∧ path = "/api/actors" then handle_get_actors fb
  else if method = "POST" ∧ path = "/api/actors" then handle_post_actors pa fb request
  else if method = "PUT" ∧ path = "/api/actors" then handle_put_actors pv fb request
  else if method = "DELETE" ∧ path = "/api/actors" then handle_delete_actors pv fb request
  else if method = "GET" ∧ path = "/api/reviews" then handle_get_reviews fb
  else if method = "POST" ∧ path = "/api/reviews" then handle_post_reviews pr fb request
  else if method = "PUT" ∧ path = "/api/reviews" then handle_put_reviews pv fb request
  else if method = "DELETE" ∧ path = "/api/reviews" then handle_delete_reviews pv fb request
  else (handle_404, [])

/-- The twelve routed `(method, path)` pairs of the dispatch table. -/
def routedPairs : List (String × String) :=
  [("GET", "/api/movies"), ("POST", "/api/movies"),
   ("PUT", "/api/movies"), ("DELETE", "/api/movies"),
   ("GET", "/api/actors"), ("POST", "/api/actors"),
   ("PUT", "/api/actors"), ("DELETE", "/api/actors"),
   ("GET", "/api/reviews"), ("POST", "/api/reviews"),
   ("PUT", "/api/reviews"), ("DELETE", "/api/reviews")]

/-!
`handle_connection` of `main.rs`.  A connection is modelled by the outcomes
of its three I/O operations: the single bounded `read` (yielding the
request text obtained from the buffer, via `from_utf8_lossy`), the `write`
of the response and the final `flush`.  Each is fallible; the Rust code
calls `.unwrap()` on all three, so an I/O error becomes a panic that
unwinds out of `handle_connection` (and hence out of the job).
-/

/-- One inbound connection, by the outcomes of its I/O operations. -/
structure Conn where
  readResult : Except Unit String
  writeResult : Except Unit Unit
  flushResult : Except Unit Unit

/-- How `handle_connection` ends: normal completion having written a
response, or a panic (from an `.unwrap()` on a failed I/O operation),
tagged with the operation that failed. -/
inductive ConnOutcome where
  | completed (response : String)
  | panicOn (op : String)
deriving Repr, DecidableEq

/-- Whether the outcome is a panic. -/
def ConnOutcome.isPanic : ConnOutcome → Bool
  | .completed _ => false
  | .panicOn _ => true

/-- Rust `handle_connection` from `main.rs`: read the request
(`stream.read(..).unwrap()` — a read error panics), parse the request
line, route, then write and flush the response (`.unwrap()` on each — a
write or flush error panics). -/
def handle_connection (pv : String → Except Unit Json) (pm : String → Except Unit Movie)
    (pa : String → Except Unit Actor) (pr : String → Except Unit Review)
    (fb : Backend) (conn : Conn) : ConnOutcome :=
  match conn.readResult with
  | .error _ => .panicOn "read"
  | .ok request =>
    let mp := parse_request_line request
    let response := (routeRequest pv pm pa pr fb mp.1 mp.2 request).1
    match conn.writeResult with
    | .error _ => .panicOn "write"
    | .ok _ =>
      match conn.flushResult with
      | .error _ => .panicOn "flush"
      | .ok _ => .completed response

/-!
The thread pool of `src/lib.rs`.  A job is opaque to the pool; what matters
to the claims is whether running it panics, so a queued job is modelled by
an identifier together with its execution outcome.  A worker is a loop over
the stream of messages it dequeues; the loop body runs `job()` with no
`catch_unwind`, so a panicking job unwinds out of the loop and kills the
thread.
-/

/-- The outcome of running one job. -/
inductive JobResult where
  | ok
  | panicked
deriving Repr, DecidableEq

/-- The `Message` enum of `lib.rs`: a new job (with its identifier and
execution outcome) or the terminate signal. -/
inductive Message where
  | newJob (id : Nat) (result : JobResult)
  | terminate
deriving Repr, DecidableEq

/-- How a worker loop ends on a finite message stream. -/
inductive WorkerExit where
  | terminated
  | panicked
  | waiting
deriving Repr, DecidableEq

/-- The worker loop body of `Worker::new` in `lib.rs`, run over the finite
stream of messages this worker dequeues: on `NewJob`, execute the job —
there is no panic handler, so a panicking job ends the loop with the
thread dead; on `Terminate`, break out of the loop.  Returns the
identifiers of the jobs the worker started executing, in order, together
with how the loop ended (`waiting` when the stream ran out with the worker
still blocked on `recv`). -/
def runWorker : List Message → List Nat × WorkerExit
  | [] => ([], .waiting)
  | .newJob id .ok :: rest =>
    let r := runWorker rest
    (id :: r.1, r.2)
  | .newJob id .panicked :: _ => ([id], .panicked)
  | .terminate :: _ => ([], .terminated)

/-- The `Worker` struct of `lib.rs`: an identifier and the join handle of
its thread (`None` once the thread has been taken and joined). -/
structure Worker where
  id : Nat
  thread : Option Unit

/-- Rust `Worker::new` from `lib.rs`: spawn the loop thread and hold its join
handle. -/
def Worker.new (id : Nat) : Worker :=
  { id := id, thread := some () }

/-- The `ThreadPool` struct of `lib.rs`: the workers and the sending half
of the channel (modelled by whether it is still open). -/
structure ThreadPool where
  workers : List Worker
  senderOpen : Bool

/-- Rust `ThreadPool::new` from `lib.rs`: `assert!(size > 0)` panics on size 0
(modelled as `Except.error`, raised before any worker is constructed);
otherwise create the channel and one worker per `id` in `0..size`. -/
def ThreadPool.new (size : Nat) : Except String ThreadPool :=
  if size > 0 then
    .ok { workers := (List.range size).map Worker.new, senderOpen := true }
  else
    .error "assertion failed: size > 0"

/-- The teardown sequence of `Drop for ThreadPool` in `lib.rs`: first the
messages sent (one `Terminate` per element of `workers`), then the worker
ids joined, in order (each worker whose join handle is still present is
joined). -/
def ThreadPool.dropTrace (pool : ThreadPool) : List Message × List Nat :=
  (pool.workers.map (fun _ => Message.terminate),
   (pool.workers.filter (fun w => w.thread.isSome)).map Worker.id)

end RustHttpServer

namespace RustHttpServer

/-!
Concrete instantiations of the external collaborators (deserializers and
backend), used to exercise the theorems on concrete inputs.
-/

/-- A deserializer that rejects every body. -/
def noParseV : String → Except Unit Json := fun _ => .error ()

/-- A `Movie` deserializer that rejects every body. -/
def noParseM : String → Except Unit Movie := fun _ => .error ()

/-- An `Actor` deserializer that rejects every body. -/
def noParseA : String → Except Unit Actor := fun _ => .error ()

/-- A `Review` deserializer that rejects every body. -/
def noParseR : String → Except Unit Review := fun _ => .error ()

/-- A deserializer that parses every body to the fixed JSON value `v`. -/
def constParseV (v : Json) : String → Except Unit Json := fun _ => .ok v

/-- A `Movie` deserializer that parses every body to the fixed record `m`. -/
def constParseM (m : Movie) : String → Except Unit Movie := fun _ => .ok m

/-- An `Actor` deserializer that parses every body to the fixed record `a`. -/
def constParseA (a : Actor) : String → Except Unit Actor := fun _ => .ok a

/-- A `Review` deserializer that parses every body to the fixed record `r`. -/
def constParseR (r : Review) : String → Except Unit Review := fun _ => .ok r

/-- A backend on which every operation fails. -/
def failBackend : Backend :=
  { get := fun _ => .error (), set := fun _ _ => .error (),
    update := fun _ _ => .error (), delete := fun _ => .error () }

/-- A backend on which every operation succeeds and every read returns the
fixed JSON value `v`. -/
def constGetBackend (v : Json) : Backend :=
  { get := fun _ => .ok v, set := fun _ _ => .ok (),
    update := fun _ _ => .ok (), delete := fun _ => .ok () }

/-- A backend on which every operation succeeds and every read returns
JSON null. -/
def okBackend : Backend := constGetBackend .null

/-- The sample movie of the spec's test properties. -/
def sampleMovie : Movie := { title := "X", director := "Y", release_year := 1999 }

/-- A sample actor record. -/
def sampleActor : Actor := { name := "A", date_of_birth := 1970 }

/-- A sample review record. -/
def sampleReview : Review := { movie_id := "m", reviewer := "r", rating := 5, comment := "c" }

/-!
Claim C1 — error mapping of POST/PUT/DELETE on backend failure.
The claim states the handlers render 500 on a backend failure; in the
source every backend failure in these nine handlers merely logs and falls
through to `handle_400`, so the response has status 400, not 500.
-/

/-- C1 counterexample: a `DELETE /api/reviews` request whose body parses to
`obj [("id", "abc")]`, against a backend whose every call fails, yields a
response with status line `HTTP/1.0 400 BAD REQUEST` — not the status 500
the claim requires. -/
theorem backend_failure_renders_400_cex :
    statusOf (handle_delete_reviews (constParseV (Json.obj [("id", Json.str "abc")]))
        failBackend "DELETE /api/reviews HTTP/1.0\r\n\r\n\x7b\"id\":\"abc\"\x7d").1 =
      "HTTP/1.0 400 BAD REQUEST" ∧
    statusOf (handle_delete_reviews (constParseV (Json.obj [("id", Json.str "abc")]))
        failBackend "DELETE /api/reviews HTTP/1.0\r\n\r\n\x7b\"id\":\"abc\"\x7d").1 ≠
      "HTTP/1.0 500 INTERNAL SERVER ERROR" := by
  decide

/-- C1 (amended): for every POST, PUT or DELETE request to the three
resources whose body parses successfully (with a string `id` field for
PUT/DELETE), if the backend call fails the handler returns the 400
response — status line `HTTP/1.0 400 BAD REQUEST` with the non-empty error
body `400 - Bad Request` — rather than a 500 response. -/
theorem backend_failure_renders_400 (pv : String → Except Unit Json)
    (pm : String → Except Unit Movie) (pa : String → Except Unit Actor)
    (pr : String → Except Unit Review) (fb : Backend) (request : String)
    (v : Json) (i : String) (b : String) (m : Movie) (a : Actor) (r : Review)
    (hset : ∀ p w, fb.set p w = .error ())
    (hupd : ∀ p w, fb.update p w = .error ())
    (hdel : ∀ p, fb.delete p = .error ())
    (hpv : pv (sanitizedBody request) = .ok v) (hid : jsonIdStr v = some i)
    (hb : bodyAfterSep request = some b)
    (hpm : pm (sanitize b) = .ok m) (hpa : pa (sanitize b) = .ok a)
    (hpr : pr (sanitize b) = .ok r) :
    (handle_post_movies pm fb request).1 = handle_400 ∧
    (handle_post_actors pa fb request).1 = handle_400 ∧
    (handle_post_reviews pr fb request).1 = handle_400 ∧
    (handle_put_movies pv fb request).1 = handle_400 ∧
    (handle_put_actors pv fb request).1 = handle_400 ∧
    (handle_put_reviews pv fb request).1 = handle_400 ∧
    (handle_delete_movies pv fb request).1 = handle_400 ∧
    (handle_delete_actors pv fb request).1 = handle_400 ∧
    (handle_delete_reviews pv fb request).1 = handle_400 ∧
    statusOf handle_400 = "HTTP/1.0 400 BAD REQUEST" ∧
    bodyOf handle_400 = "400 - Bad Request" := by
  refine ⟨?_, ?_, ?_, ?_, ?_, ?_, ?_, ?_, ?_, by decide, by decide⟩
  · simp [handle_post_movies, hb, hpm, hset]
  · simp [handle_post_actors, hb, hpa, hset]
  · simp [handle_post_reviews, hb, hpr, hset]
  · simp [handle_put_movies, hpv, hid, hupd]
  · simp [handle_put_actors, hpv, hid, hupd]
  · simp [handle_put_reviews, hpv, hid, hupd]
  · simp [handle_delete_movies, hpv, hid, hdel]
  · simp [handle_delete_actors, hpv, hid, hdel]
  · simp [handle_delete_reviews, hpv, hid, hdel]

/-- Witness for `backend_failure_renders_400` on a concrete DELETE request
with body `{"id":"abc"}` against the all-failing backend. -/
theorem backend_failure_renders_400_witness :
    (handle_delete_reviews (constParseV (Json.obj [("id", Json.str "abc")])) failBackend
      "DELETE /api/reviews HTTP/1.0\r\n\r\n\x7b\"id\":\"abc\"\x7d").1 = handle_400 ∧
    (handle_post_movies (constParseM sampleMovie) failBackend
      "DELETE /api/reviews HTTP/1.0\r\n\r\n\x7b\"id\":\"abc\"\x7d").1 = handle_400 := by
  obtain ⟨w1, -, -, -, -, -, -, -, w9, -, -⟩ :=
    backend_failure_renders_400 (constParseV (Json.obj [("id", Json.str "abc")]))
      (constParseM sampleMovie) (constParseA sampleActor) (constParseR sampleReview)
      failBackend "DELETE /api/reviews HTTP/1.0\r\n\r\n\x7b\"id\":\"abc\"\x7d"
      (Json.obj [("id", Json.str "abc")]) "abc" "\x7b\"id\":\"abc\"\x7d"
      sampleMovie sampleActor sampleReview
      (fun _ _ => rfl) (fun _ _ => rfl) (fun _ => rfl) rfl rfl (by decide) rfl rfl rfl
  exact ⟨w9, w1⟩

/-!
Claim C2 — panics inside a job.  The claim states a panic inside a job is
caught and logged in the worker loop and never kills the worker thread;
in the source the worker loop runs `job()` with no panic handler, so a
panicking job unwinds out of the loop and terminates the thread.
-/

/-- C2 counterexample: with a one-worker pool whose queue holds a panicking
job `0` followed by a good job `1`, the worker loop ends with the thread
dead (`WorkerExit.panicked`) and the subsequently queued job `1` is never
executed — the panic was not caught and did terminate the worker thread. -/
theorem worker_panic_not_caught_cex :
    (runWorker [Message.newJob 0 .panicked, Message.newJob 1 .ok]).2 = WorkerExit.panicked ∧
    1 ∉ (runWorker [Message.newJob 0 .panicked, Message.newJob 1 .ok]).1 := by
  decide

/-- C2 (amended): since the worker loop of `Worker::new` runs `job()` with
no panic handler, the first panicking job on a worker's message stream
terminates that worker thread: the jobs queued before it execute, and no
message after it is ever processed by this worker (in a one-worker pool,
subsequently queued jobs are never executed at all). -/
theorem worker_panic_kills_thread (pre : List Nat) (id : Nat) (rest : List Message) :
    runWorker (pre.map (fun i => Message.newJob i JobResult.ok) ++
        Message.newJob id JobResult.panicked :: rest) =
      (pre ++ [id], WorkerExit.panicked) := by
  induction pre with
  | nil => rfl
  | cons a l ih => simp [runWorker, ih]

/-!
Claim C3 — connection I/O failures.  The claim states read/write/flush
failures are logged and non-fatal to the handling thread; in the source
all three are unwrapped, so a failure panics out of `handle_connection`
and hence out of the job.
-/

/-- C3 counterexample: a connection whose read fails, and one whose write
fails, both make `handle_connection` panic (the failure propagates out of
the job instead of being logged and abandoned). -/
theorem connection_io_failure_cex :
    handle_connection noParseV noParseM noParseA noParseR failBackend
      ⟨.error (), .ok (), .ok ()⟩ = .panicOn "read" ∧
    handle_connection noParseV noParseM noParseA noParseR failBackend
      ⟨.ok "GET /api/movies HTTP/1.0\r\n\r\n", .error (), .ok ()⟩ = .panicOn "write" ∧
    (handle_connection noParseV noParseM noParseA noParseR failBackend
      ⟨.error (), .ok (), .ok ()⟩).isPanic = true := by
  decide

/-- C3 (amended): a failure of the read, the write, or the flush on the
connection makes `handle_connection` panic through the corresponding
`.unwrap()` — the failure is not logged, and it propagates out of the job
(the connection is indeed abandoned without retry, but by a panic). -/
theorem connection_io_failure_panics (pv : String → Except Unit Json)
    (pm : String → Except Unit Movie) (pa : String → Except Unit Actor)
    (pr : String → Except Unit Review) (fb : Backend) (conn : Conn) :
    (∀ e, conn.readResult = .error e →
      handle_connection pv pm pa pr fb conn = .panicOn "read") ∧
    (∀ s e, conn.readResult = .ok s → conn.writeResult = .error e →
      handle_connection pv pm pa pr fb conn = .panicOn "write") ∧
    (∀ s e, conn.readResult = .ok s → conn.writeResult = .ok () →
      conn.flushResult = .error e →
      handle_connection pv pm pa pr fb conn = .panicOn "flush") := by
  refine ⟨?_, ?_, ?_⟩ <;> intros <;> simp [handle_connection, *]

/-- Witness for `connection_io_failure_panics` on three concrete
connections, one per failing operation. -/
theorem connection_io_failure_panics_witness :
    handle_connection noParseV noParseM noParseA noParseR failBackend
      ⟨.error (), .ok (), .ok ()⟩ = .panicOn "read" ∧
    handle_connection noParseV noParseM noParseA noParseR failBackend
      ⟨.ok "X", .error (), .ok ()⟩ = .panicOn "write" ∧
    handle_connection noParseV noParseM noParseA noParseR failBackend
      ⟨.ok "X", .ok (), .error ()⟩ = .panicOn "flush" :=
  ⟨(connection_io_failure_panics noParseV noParseM noParseA noParseR failBackend
      ⟨.error (), .ok (), .ok ()⟩).1 () rfl,
   (connection_io_failure_panics noParseV noParseM noParseA noParseR failBackend
      ⟨.ok "X", .error (), .ok ()⟩).2.1 "X" () rfl rfl,
   (connection_io_failure_panics noParseV noParseM noParseA noParseR failBackend
      ⟨.ok "X", .ok (), .error ()⟩).2.2 "X" () rfl rfl rfl⟩

/-- C4: the routing table maps exactly the twelve pairs of method in
GET/POST/PUT/DELETE and path in the three `/api` resources to the
corresponding resource handlers, and every other `(method, path)` pair
produces the 404 response (with no backend call). -/
theorem routing_table_exhaustive (pv : String → Except Unit Json)
    (pm : String → Except Unit Movie) (pa : String → Except Unit Actor)
    (pr : String → Except Unit Review) (fb : Backend) (request method path : String)
    (h : (method, path) ∉ routedPairs) :
    routeRequest pv pm pa pr fb method path request = (handle_404, []) ∧
    routeRequest pv pm pa pr fb "GET" "/api/movies" request = handle_get_movies fb ∧
    routeRequest pv pm pa pr fb "POST" "/api/movies" request = handle_post_movies pm fb request ∧
    routeRequest pv pm pa pr fb "PUT" "/api/movies" request = handle_put_movies pv fb request ∧
    routeRequest pv pm pa pr fb "DELETE" "/api/movies" request = handle_delete_movies pv fb request ∧
    routeRequest pv pm pa pr fb "GET" "/api/actors" request = handle_get_actors fb ∧
    routeRequest pv pm pa pr fb "POST" "/api/actors" request = handle_post_actors pa fb request ∧
    routeRequest pv pm pa pr fb "PUT" "/api/actors" request = handle_put_actors pv fb request ∧
    routeRequest pv pm pa pr fb "DELETE" "/api/actors" request = handle_delete_actors pv fb request ∧
    routeRequest pv pm pa pr fb "GET" "/api/reviews" request = handle_get_reviews fb ∧
    routeRequest pv pm pa pr fb "POST" "/api/reviews" request = handle_post_reviews pr fb request ∧
    routeRequest pv pm pa pr fb "PUT" "/api/reviews" request = handle_put_reviews pv fb request ∧
    routeRequest pv pm pa pr fb "DELETE" "/api/reviews" request = handle_delete_reviews pv fb request := by
  refine ⟨?_, rfl, rfl, rfl, rfl, rfl, rfl, rfl, rfl, rfl, rfl, rfl, rfl⟩
  have h1 : ¬(method = "GET" ∧ path = "/api/movies") := by
    rintro ⟨rfl, rfl⟩; exact h (by decide)
  have h2 : ¬(method = "POST" ∧ path = "/api/movies") := by
    rintro ⟨rfl, rfl⟩; exact h (by decide)
  have h3 : ¬(method = "PUT" ∧ path = "/api/movies") := by
    rintro ⟨rfl, rfl⟩; exact h (by decide)
  have h4 : ¬(method = "DELETE" ∧ path = "/api/movies") := by
    rintro ⟨rfl, rfl⟩; exact h (by decide)
  have h5 : ¬(method = "GET" ∧ path = "/api/actors") := by
    rintro ⟨rfl, rfl⟩; exact h (by decide)
  have h6 : ¬(method = "POST" ∧ path = "/api/actors") := by
    rintro ⟨rfl, rfl⟩; exact h (by decide)
  have h7 : ¬(method = "PUT" ∧ path = "/api/actors") := by
    rintro ⟨rfl, rfl⟩; exact h (by decide)
  have h8 : ¬(method = "DELETE" ∧ path = "/api/actors") := by
    rintro ⟨rfl, rfl⟩; exact h (by decide)
  have h9 : ¬(method = "GET" ∧ path = "/api/reviews") := by
    rintro ⟨rfl, rfl⟩; exact h (by decide)
  have h10 : ¬(method = "POST" ∧ path = "/api/reviews") := by
    rintro ⟨rfl, rfl⟩; exact h (by decide)
  have h11 : ¬(method = "PUT" ∧ path = "/api/reviews") := by
    rintro ⟨rfl, rfl⟩; exact h (by decide)
  have h12 : ¬(method = "DELETE" ∧ path = "/api/reviews") := by
    rintro ⟨rfl, rfl⟩; exact h (by decide)
  unfold routeRequest
  rw [if_neg h1, if_neg h2, if_neg h3, if_neg h4, if_neg h5, if_neg h6,
      if_neg h7, if_neg h8, if_neg h9, if_neg h10, if_neg h11, if_neg h12]

/-- Witness for `routing_table_exhaustive` at the unrouted pair
`("PATCH", "/api/movies")`. -/
theorem routing_table_exhaustive_witness :
    routeRequest noParseV noParseM noParseA noParseR failBackend "PATCH" "/api/movies" "" =
      (handle_404, []) :=
  (routing_table_exhaustive noParseV noParseM noParseA noParseR failBackend ""
    "PATCH" "/api/movies" (by decide)).1

/-- C5: for every request whose first line has fewer than two
whitespace-separated tokens (including the empty request),
`parse_request_line` returns `("", "")`, and routing that pair yields the
404 response (no panic is possible: the embedding is total). -/
theorem short_request_line_routes_404 (pv : String → Except Unit Json)
    (pm : String → Except Unit Movie) (pa : String → Except Unit Actor)
    (pr : String → Except Unit Review) (fb : Backend) (request : String)
    (h : (firstLineTokens request).length < 2) :
    parse_request_line request = ("", "") ∧
    routeRequest pv pm pa pr fb "" "" request = (handle_404, []) := by
  constructor
  · unfold parse_request_line
    unfold firstLineTokens at h
    cases hf : firstLine request.data with
    | none => simp
    | some line =>
      rw [hf] at h
      have h2 : ¬((splitWhitespace line).length ≥ 2) := by
        replace h : (splitWhitespace line).length < 2 := h
        omega
      simp [h2]
  · simp [routeRequest]

/-- Witness for `short_request_line_routes_404` on the one-token request
`JUNK`. -/
theorem short_request_line_routes_404_witness :
    parse_request_line "JUNK\r\n\r\n" = ("", "") ∧
    routeRequest noParseV noParseM noParseA noParseR failBackend "" "" "JUNK\r\n\r\n" =
      (handle_404, []) :=
  short_request_line_routes_404 noParseV noParseM noParseA noParseR failBackend
    "JUNK\r\n\r\n" (by decide)

/-- C6: for every GET on a resource collection, a null backend collection
renders as status 200 with body `[]`, a non-null value renders as status
200 with the value serialized as the body, and a backend failure renders
as the 500 response. -/
theorem get_collection_spec (fb : Backend) (v : Json) :
    (fb.get "movies" = .ok Json.null →
      handle_get_movies fb = (formatResponse "HTTP/1.0 200 OK" "[]", [.get "movies"])) ∧
    (fb.get "movies" = .ok v → v.isNull = false →
      handle_get_movies fb = (formatResponse "HTTP/1.0 200 OK" v.render, [.get "movies"])) ∧
    (fb.get "movies" = .error () →
      handle_get_movies fb =
        (formatResponse "HTTP/1.0 500 INTERNAL SERVER ERROR" "Failed to retrieve movies",
         [.get "movies"])) ∧
    (fb.get "actors" = .ok Json.null →
      handle_get_actors fb = (formatResponse "HTTP/1.0 200 OK" "[]", [.get "actors"])) ∧
    (fb.get "actors" = .ok v → v.isNull = false →
      handle_get_actors fb = (formatResponse "HTTP/1.0 200 OK" v.render, [.get "actors"])) ∧
    (fb.get "actors" = .error () →
      handle_get_actors fb =
        (formatResponse "HTTP/1.0 500 INTERNAL SERVER ERROR" "Failed to retrieve actors",
         [.get "actors"])) ∧
    (fb.get "reviews" = .ok Json.null →
      handle_get_reviews fb = (formatResponse "HTTP/1.0 200 OK" "[]", [.get "reviews"])) ∧
    (fb.get "reviews" = .ok v → v.isNull = false →
      handle_get_reviews fb = (formatResponse "HTTP/1.0 200 OK" v.render, [.get "reviews"])) ∧
    (fb.get "reviews" = .error () →
      handle_get_reviews fb =
        (formatResponse "HTTP/1.0 500 INTERNAL SERVER ERROR" "Failed to retrieve reviews",
         [.get "reviews"])) := by
  refine ⟨?_, ?_, ?_, ?_, ?_, ?_, ?_, ?_, ?_⟩
  · intro h; simp [handle_get_movies, h, Json.isNull]
  · intro h hn; simp [handle_get_movies, h, hn]
  · intro h; simp [handle_get_movies, h]
  · intro h; simp [handle_get_actors, h, Json.isNull]
  · intro h hn; simp [handle_get_actors, h, hn]
  · intro h; simp [handle_get_actors, h]
  · intro h; simp [handle_get_reviews, h, Json.isNull]
  · intro h hn; simp [handle_get_reviews, h, hn]
  · intro h; simp [handle_get_reviews, h]

/-- Witness for `get_collection_spec` on three concrete backends: one
returning null, one returning the string `"x"`, one failing. -/
theorem get_collection_spec_witness :
    handle_get_movies okBackend = (formatResponse "HTTP/1.0 200 OK" "[]", [.get "movies"]) ∧
    handle_get_movies (constGetBackend (Json.str "x")) =
      (formatResponse "HTTP/1.0 200 OK" (Json.str "x").render, [.get "movies"]) ∧
    handle_get_movies failBackend =
      (formatResponse "HTTP/1.0 500 INTERNAL SERVER ERROR" "Failed to retrieve movies",
       [.get "movies"]) ∧
    handle_get_actors okBackend = (formatResponse "HTTP/1.0 200 OK" "[]", [.get "actors"]) ∧
    handle_get_actors (constGetBackend (Json.str "x")) =
      (formatResponse "HTTP/1.0 200 OK" (Json.str "x").render, [.get "actors"]) ∧
    handle_get_actors failBackend =
      (formatResponse "HTTP/1.0 500 INTERNAL SERVER ERROR" "Failed to retrieve actors",
       [.get "actors"]) ∧
    handle_get_reviews okBackend = (formatResponse "HTTP/1.0 200 OK" "[]", [.get "reviews"]) ∧
    handle_get_reviews (constGetBackend (Json.str "x")) =
      (formatResponse "HTTP/1.0 200 OK" (Json.str "x").render, [.get "reviews"]) ∧
    handle_get_reviews failBackend =
      (formatResponse "HTTP/1.0 500 INTERNAL SERVER ERROR" "Failed to retrieve reviews",
       [.get "reviews"]) := by
  refine ⟨?_, ?_, ?_, ?_, ?_, ?_, ?_, ?_, ?_⟩
  · exact (get_collection_spec okBackend Json.null).1 rfl
  · exact (get_collection_spec (constGetBackend (Json.str "x")) (Json.str "x")).2.1 rfl rfl
  · exact (get_collection_spec failBackend Json.null).2.2.1 rfl
  · exact (get_collection_spec okBackend Json.null).2.2.2.1 rfl
  · exact (get_collection_spec (constGetBackend (Json.str "x")) (Json.str "x")).2.2.2.2.1 rfl rfl
  · exact (get_collection_spec failBackend Json.null).2.2.2.2.2.1 rfl
  · exact (get_collection_spec okBackend Json.null).2.2.2.2.2.2.1 rfl
  · exact (get_collection_spec (constGetBackend (Json.str "x")) (Json.str "x")).2.2.2.2.2.2.2.1 rfl rfl
  · exact (get_collection_spec failBackend Json.null).2.2.2.2.2.2.2.2 rfl

/-- C7: for every PUT or DELETE request whose body parses to a JSON value
without a string `id` field, the handler returns the 400 response and
performs no backend call at all (the empty call list). -/
theorem put_delete_missing_id_400 (pv : String → Except Unit Json) (fb : Backend)
    (request : String) (v : Json)
    (hpv : pv (sanitizedBody request) = .ok v) (hid : jsonIdStr v = none) :
    handle_put_movies pv fb request = (handle_400, []) ∧
    handle_put_actors pv fb request = (handle_400, []) ∧
    handle_put_reviews pv fb request = (handle_400, []) ∧
    handle_delete_movies pv fb request = (handle_400, []) ∧
    handle_delete_actors pv fb request = (handle_400, []) ∧
    handle_delete_reviews pv fb request = (handle_400, []) := by
  simp [handle_put_movies, handle_put_actors, handle_put_reviews,
        handle_delete_movies, handle_delete_actors, handle_delete_reviews, hpv, hid]

/-- Witness for `put_delete_missing_id_400`: a PUT to `/api/actors` whose
body parses to an object with no `id` field yields the 400 response and no
backend call. -/
theorem put_delete_missing_id_400_witness :
    handle_put_actors (constParseV (Json.obj [("title", Json.str "X")])) failBackend
      "PUT /api/actors HTTP/1.0\r\n\r\n\x7b\"title\":\"X\"\x7d" = (handle_400, []) :=
  (put_delete_missing_id_400 (constParseV (Json.obj [("title", Json.str "X")])) failBackend
    "PUT /api/actors HTTP/1.0\r\n\r\n\x7b\"title\":\"X\"\x7d"
    (Json.obj [("title", Json.str "X")]) rfl rfl).2.1

/-- C8: `ThreadPool::new(0)` fails fatally and deterministically (the
assertion fires before any worker is constructed), and for every positive
size `ThreadPool::new(size)` yields a pool holding exactly `size`
workers. -/
theorem threadPool_new_spec (size : Nat) (h : 0 < size) :
    ThreadPool.new 0 = .error "assertion failed: size > 0" ∧
    ∃ pool, ThreadPool.new size = .ok pool ∧ pool.workers.length = size := by
  refine ⟨rfl, ⟨{ workers := (List.range size).map Worker.new, senderOpen := true }, ?_, ?_⟩⟩
  · simp [ThreadPool.new, h]
  · simp

/-- Witness for `threadPool_new_spec` at size 4, the pool size `main`
uses. -/
theorem threadPool_new_spec_witness :
    ThreadPool.new 0 = .error "assertion failed: size > 0" ∧
    ∃ pool, ThreadPool.new 4 = .ok pool ∧ pool.workers.length = 4 :=
  threadPool_new_spec 4 (by decide)

/-- C9: on destruction of a pool built by `ThreadPool::new`, teardown first
sends exactly one `Terminate` message per worker (`size` of them) and then
joins every one of the `size` worker threads in sequence (the join list
covers every worker, in order). -/
theorem threadPool_teardown_spec (size : Nat) (pool : ThreadPool)
    (h : ThreadPool.new size = .ok pool) :
    pool.dropTrace.1 = List.replicate size Message.terminate ∧
    pool.dropTrace.2 = pool.workers.map Worker.id ∧
    pool.dropTrace.2.length = size := by
  unfold ThreadPool.new at h
  split at h
  · cases h
    refine ⟨?_, ?_, ?_⟩
    · simp [ThreadPool.dropTrace, Function.comp_def, List.map_const']
    · simp [ThreadPool.dropTrace, List.filter_map, Function.comp_def, Worker.new]
    · simp [ThreadPool.dropTrace, List.filter_map, Function.comp_def, Worker.new]
  · cases h

/-- Witness for `threadPool_teardown_spec` on the concrete pool of one
worker. -/
theorem threadPool_teardown_spec_witness :
    (ThreadPool.dropTrace ⟨[Worker.new 0], true⟩).1 = List.replicate 1 Message.terminate ∧
    (ThreadPool.dropTrace ⟨[Worker.new 0], true⟩).2 =
      (ThreadPool.workers ⟨[Worker.new 0], true⟩).map Worker.id ∧
    (ThreadPool.dropTrace ⟨[Worker.new 0], true⟩).2.length = 1 :=
  threadPool_teardown_spec 1 ⟨[Worker.new 0], true⟩ rfl

/-- C10: for every PUT or DELETE request whose body parses to a JSON value
with a string `id` field, if the backend update/delete succeeds the
response has status line `HTTP/1.0 200 OK` and a short confirmation
body. -/
theorem put_delete_success_200 (pv : String → Except Unit Json) (fb : Backend)
    (request : String) (v : Json) (i : String)
    (hpv : pv (sanitizedBody request) = .ok v) (hid : jsonIdStr v = some i)
    (hupd : ∀ p w, fb.update p w = .ok ()) (hdel : ∀ p, fb.delete p = .ok ()) :
    statusOf (handle_put_movies pv fb request).1 = "HTTP/1.0 200 OK" ∧
    (handle_put_movies pv fb request).1 = formatResponse "HTTP/1.0 200 OK" "Movie updated" ∧
    statusOf (handle_put_actors pv fb request).1 = "HTTP/1.0 200 OK" ∧
    (handle_put_actors pv fb request).1 = formatResponse "HTTP/1.0 200 OK" "Actor updated" ∧
    statusOf (handle_put_reviews pv fb request).1 = "HTTP/1.0 200 OK" ∧
    (handle_put_reviews pv fb request).1 = formatResponse "HTTP/1.0 200 OK" "Review updated" ∧
    statusOf (handle_delete_movies pv fb request).1 = "HTTP/1.0 200 OK" ∧
    (handle_delete_movies pv fb request).1 = formatResponse "HTTP/1.0 200 OK" "Movie deleted" ∧
    statusOf (handle_delete_actors pv fb request).1 = "HTTP/1.0 200 OK" ∧
    (handle_delete_actors pv fb request).1 = formatResponse "HTTP/1.0 200 OK" "Actor deleted" ∧
    statusOf (handle_delete_reviews pv fb request).1 = "HTTP/1.0 200 OK" ∧
    (handle_delete_reviews pv fb request).1 = formatResponse "HTTP/1.0 200 OK" "Review deleted" := by
  have e1 : handle_put_movies pv fb request =
      (formatResponse "HTTP/1.0 200 OK" "Movie updated", [.update ("movies/" ++ i) v]) := by
    simp [handle_put_movies, hpv, hid, hupd]
  have e2 : handle_put_actors pv fb request =
      (formatResponse "HTTP/1.0 200 OK" "Actor updated", [.update ("actors/" ++ i) v]) := by
    simp [handle_put_actors, hpv, hid, hupd]
  have e3 : handle_put_reviews pv fb request =
      (formatResponse "HTTP/1.0 200 OK" "Review updated", [.update ("reviews/" ++ i) v]) := by
    simp [handle_put_reviews, hpv, hid, hupd]
  have e4 : handle_delete_movies pv fb request =
      (formatResponse "HTTP/1.0 200 OK" "Movie deleted", [.delete ("movies/" ++ i)]) := by
    simp [handle_delete_movies, hpv, hid, hdel]
  have e5 : handle_delete_actors pv fb request =
      (formatResponse "HTTP/1.0 200 OK" "Actor deleted", [.delete ("actors/" ++ i)]) := by
    simp [handle_delete_actors, hpv, hid, hdel]
  have e6 : handle_delete_reviews pv fb request =
      (formatResponse "HTTP/1.0 200 OK" "Review deleted", [.delete ("reviews/" ++ i)]) := by
    simp [handle_delete_reviews, hpv, hid, hdel]
  have s1 : statusOf (formatResponse "HTTP/1.0 200 OK" "Movie updated") = "HTTP/1.0 200 OK" := by
    decide
  have s2 : statusOf (formatResponse "HTTP/1.0 200 OK" "Actor updated") = "HTTP/1.0 200 OK" := by
    decide
  have s3 : statusOf (formatResponse "HTTP/1.0 200 OK" "Review updated") = "HTTP/1.0 200 OK" := by
    decide
  have s4 : statusOf (formatResponse "HTTP/1.0 200 OK" "Movie deleted") = "HTTP/1.0 200 OK" := by
    decide
  have s5 : statusOf (formatResponse "HTTP/1.0 200 OK" "Actor deleted") = "HTTP/1.0 200 OK" := by
    decide
  have s6 : statusOf (formatResponse "HTTP/1.0 200 OK" "Review deleted") = "HTTP/1.0 200 OK" := by
    decide
  exact ⟨by rw [e1]; exact s1, by rw [e1], by rw [e2]; exact s2, by rw [e2],
         by rw [e3]; exact s3, by rw [e3], by rw [e4]; exact s4, by rw [e4],
         by rw [e5]; exact s5, by rw [e5], by rw [e6]; exact s6, by rw [e6]⟩

/-- Witness for `put_delete_success_200` on a concrete request with body
`{"id":"abc"}` against the all-succeeding backend. -/
theorem put_delete_success_200_witness :
    statusOf (handle_put_movies (constParseV (Json.obj [("id", Json.str "abc")])) okBackend
      "PUT /api/movies HTTP/1.0\r\n\r\n\x7b\"id\":\"abc\"\x7d").1 = "HTTP/1.0 200 OK" ∧
    statusOf (handle_delete_reviews (constParseV (Json.obj [("id", Json.str "abc")])) okBackend
      "PUT /api/movies HTTP/1.0\r\n\r\n\x7b\"id\":\"abc\"\x7d").1 = "HTTP/1.0 200 OK" := by
  obtain ⟨w1, -, -, -, -, -, -, -, -, -, w11, -⟩ :=
    put_delete_success_200 (constParseV (Json.obj [("id", Json.str "abc")])) okBackend
      "PUT /api/movies HTTP/1.0\r\n\r\n\x7b\"id\":\"abc\"\x7d"
      (Json.obj [("id", Json.str "abc")]) "abc" rfl rfl (fun _ _ => rfl) (fun _ => rfl)
  exact ⟨w1, w11⟩

end RustHttpServer
